import Mathlib

/-!
Shallow embedding of `src/classroom/snippets/snippets.py` (class
`ClassroomSnippets`).

Modelling conventions:
- A decoded JSON object (a Python dict) is an insertion-ordered association
  list `Dict` from string keys to string values; `dGet d k` is `d.get(k)`
  (first match or `None`) and `dSet d k v` is `d[k] = v` (replace the first
  binding in place, append when absent), matching CPython dict semantics on
  duplicate-free lists.
- The injected service handle is modelled per call-site as a transport
  function from the request body to `Except HttpError response`; `.error e`
  models `execute()` raising `googleapiclient.errors.HttpError`, `.ok r` a
  decoded response.
- `HttpError.errObj` is the decoded value of
  `json.loads(e.content).get("error")`: `none` when the JSON body lacks an
  `error` field, otherwise an `ErrObj` whose `code` field is optional.
- Each operation returns a `PyResult (List Msg) × Nat`: the list of printed
  messages on normal return, `.exn e` when the Python re-raises `e`,
  `.attrErr` when the Python would raise `AttributeError` by calling `.get`
  on `None`; the `Nat` counts the `execute()` calls issued (remote requests).
- Printed lines are modelled by the constructors of `Msg`, one per `print`
  call-site, carrying exactly the data the source interpolates.
- The unbounded `while True` pagination loop is modelled with explicit fuel:
  `none` means the loop did not finish within the given number of
  iterations; divergence is `none` for every fuel.
-/

namespace Classroom

/-- A decoded JSON object: insertion-ordered association list. -/
abbrev Dict := List (String × String)

/-- `d.get(k)`: the first value bound to `k`, or `None`. -/
def dGet : Dict → String → Option String
  | [], _ => none
  | (k2, v) :: rest, k => if k2 = k then some v else dGet rest k

/-- `d[k] = v`: replace the first binding of `k` in place, append if absent. -/
def dSet : Dict → String → String → Dict
  | [], k, v => [(k, v)]
  | (k2, v2) :: rest, k, v =>
    if k2 = k then (k, v) :: rest else (k2, v2) :: dSet rest k v

/-- The `error` object of an HttpError body: `json.loads(e.content).get("error")`,
with its optional `code` field. -/
structure ErrObj where
  code : Option Int
deriving DecidableEq

/-- `googleapiclient.errors.HttpError`, reduced to the decoded `error` object
of its content (what the call-sites consume). -/
structure HttpError where
  errObj : Option ErrObj
deriving DecidableEq

/-- One printed line per `print` call-site in the source, carrying the data
the source interpolates. -/
inductive Msg where
  | courseCreated (name id : Option String)
  | courseFound (name : Option String)
  | courseNotFound (id : String)
  | noCoursesFound
  | coursesHeader
  | courseLine (name id : Option String)
  | courseUpdated (name : Option String)
  | coursePatched (name : Option String)
  | courseCreationFailed
  | aliasCreationFailed
  | teacherAdded (fullName : Option String) (courseId : String)
  | alreadyTeacher (email : String)
  | studentEnrolled (fullName : Option String) (courseId : String)
  | alreadyStudentMember
  | assignmentCreated (id : Option String)
deriving DecidableEq

/-- Outcome of running one snippet method: normal return with its printed
lines, a propagated `HttpError`, or an `AttributeError` from `.get` on `None`. -/
inductive PyResult (α : Type) where
  | ok : α → PyResult α
  | exn : HttpError → PyResult α
  | attrErr : PyResult α
deriving DecidableEq

/-- The course body literal of `create_course` (lines 30-41). -/
def createCourseBody : Dict :=
  [("name", "10th Grade Biology"),
   ("section", "Period 2"),
   ("descriptionHeading", "Welcome to 10th Grade Biology"),
   ("description", "We will be learning about about the structure of living creatures from a combination of textbooks, guest lectures, and lab work. Expect to be excited!"),
   ("room", "301"),
   ("ownerId", "me"),
   ("courseState", "PROVISIONED")]

/-- `create_course`: one `courses().create(body).execute()`, no try block. -/
def create_course (transport : Dict → Except HttpError Dict) :
    PyResult (List Msg) × Nat :=
  match transport createCourseBody with
  | .error e => (.exn e, 1)
  | .ok c => (.ok [Msg.courseCreated (dGet c "name") (dGet c "id")], 1)

/-- `get_course`: one `courses().get(id).execute()` for the hard-coded id
`123456`; 404 in the error body is recovered, anything else re-raised;
a body without an `error` field makes `error.get("code")` an
AttributeError on `None`. -/
def get_course (transport : Except HttpError Dict) :
    PyResult (List Msg) × Nat :=
  match transport with
  | .ok course => (.ok [Msg.courseFound (dGet course "name")], 1)
  | .error e =>
    match e.errObj with
    | none => (.attrErr, 1)
    | some err =>
      if err.code = some 404 then (.ok [Msg.courseNotFound "123456"], 1)
      else (.exn e, 1)

/-- One decoded page of `courses().list(...)`: the optional `courses` field
and the optional `nextPageToken` field. -/
structure ListResponse where
  courses : Option (List Dict)
  nextPageToken : Option String
deriving DecidableEq

/-- `response.get("courses", [])`: missing field defaults to the empty page. -/
def itemsOf (r : ListResponse) : List Dict :=
  r.courses.getD []

/-- Python truthiness test `not page_token`: `None` and the empty string are
falsy, every other string truthy. -/
def tokenFalsy : Option String → Bool
  | none => true
  | some s => s == ""

/-- The `while True` body of `list_courses` (lines 73-79), with fuel: fetch a
page, extend the accumulator, stop when the returned token is falsy. Returns
the accumulated courses and the number of fetch calls, or `none` when the
fuel runs out before the loop breaks. -/
def listCoursesLoop (fetch : Option String → ListResponse) :
    Nat → Option String → List Dict → Option (List Dict × Nat)
  | 0, _, _ => none
  | fuel + 1, tok, acc =>
    let r := fetch tok
    let acc2 := acc ++ itemsOf r
    if tokenFalsy r.nextPageToken then some (acc2, 1)
    else
      match listCoursesLoop fetch fuel r.nextPageToken acc2 with
      | none => none
      | some (res, k) => some (res, k + 1)

/-- The same loop body (lines 73-79) with the `execute()` error path kept:
each page fetch may raise an `HttpError`, and `list_courses` has no try
block, so a failure on any fetch aborts the loop and propagates to the
caller with no partial result. -/
def listCoursesLoopE (fetch : Option String → Except HttpError ListResponse) :
    Nat → Option String → List Dict → Option (PyResult (List Dict) × Nat)
  | 0, _, _ => none
  | fuel + 1, tok, acc =>
    match fetch tok with
    | .error e => some (.exn e, 1)
    | .ok r =>
      let acc2 := acc ++ itemsOf r
      if tokenFalsy r.nextPageToken then some (.ok acc2, 1)
      else
        match listCoursesLoopE fetch fuel r.nextPageToken acc2 with
        | none => none
        | some (res, k) => some (res, k + 1)

/-- `list_courses` (lines 64-87): run the pagination loop from a `None`
token and an empty accumulator, then report: `No courses found.` on an empty
result, otherwise a header plus one line of name and id per course. -/
def list_courses (fetch : Option String → ListResponse) (fuel : Nat) :
    Option (List Msg × Nat) :=
  match listCoursesLoop fetch fuel none [] with
  | none => none
  | some (courses, k) =>
    if courses.isEmpty then some ([Msg.noCoursesFound], k)
    else some (Msg.coursesHeader ::
      courses.map (fun c => Msg.courseLine (dGet c "name") (dGet c "id")), k)

/-- The body `update_course` sends: the fetched course with
`course["section"] = "Period 3"` and `course["room"] = "302"` applied. -/
def updateBody (course : Dict) : Dict :=
  dSet (dSet course "section" "Period 3") "room" "302"

/-- `update_course` (lines 89-101): a `get` request, then an `update` request
whose body is the fetched course with section and room overwritten. Neither
call is guarded by a try block. -/
def update_course (getT : Except HttpError Dict)
    (updT : Dict → Except HttpError Dict) : PyResult (List Msg) × Nat :=
  match getT with
  | .error e => (.exn e, 1)
  | .ok course =>
    match updT (updateBody course) with
    | .error e => (.exn e, 2)
    | .ok c => (.ok [Msg.courseUpdated (dGet c "name")], 2)

/-- The patch body literal of `patch_course` (lines 110-113). -/
def patchBody : Dict :=
  [("section", "Period 3"), ("room", "302")]

/-- `patch_course`: one `courses().patch(...).execute()`, no try block. -/
def patch_course (transport : Dict → Except HttpError Dict) :
    PyResult (List Msg) × Nat :=
  match transport patchBody with
  | .error e => (.exn e, 1)
  | .ok c => (.ok [Msg.coursePatched (dGet c "name")], 1)

/-- The aliased-course body literal of `add_alias_new` (lines 127-134). -/
def newAliasCourseBody : Dict :=
  [("id", "d:school_math_101"),
   ("name", "Math 101"),
   ("section", "Period 2"),
   ("description", "Course Description"),
   ("room", "301"),
   ("ownerId", "me")]

/-- `add_alias_new` (lines 120-140): one create call; `except errors.HttpError`
with no condition catches every transport failure and prints
`Course Creation Failed`; nothing is re-raised. Success prints nothing. -/
def add_alias_new (transport : Dict → Except HttpError Dict) :
    PyResult (List Msg) × Nat :=
  match transport newAliasCourseBody with
  | .error _ => (.ok [Msg.courseCreationFailed], 1)
  | .ok _ => (.ok [], 1)

/-- The alias body literal of `add_alias_existing` (lines 150-152). -/
def aliasBody : Dict :=
  [("alias", "d:school_math_101")]

/-- `add_alias_existing` (lines 142-159): one aliases-create call; the bare
`except errors.HttpError` catches every transport failure and prints
`Alias Creation Failed`; nothing is re-raised. Success prints nothing. -/
def add_alias_existing (transport : Dict → Except HttpError Dict) :
    PyResult (List Msg) × Nat :=
  match transport aliasBody with
  | .error _ => (.ok [Msg.aliasCreationFailed], 1)
  | .ok _ => (.ok [], 1)

/-- The `name` object inside a member profile, with its optional `fullName`. -/
structure NameObj where
  fullName : Option String
deriving DecidableEq

/-- A member profile with its optional `name` object. -/
structure Profile where
  name : Option NameObj
deriving DecidableEq

/-- A teachers/students create response, reduced to the fields the source
reads: `profile.name.fullName` via chained `.get` calls. -/
structure MemberResp where
  profile : Option Profile
deriving DecidableEq

/-- `add_teacher` (lines 161-186): one teachers-create call; 409 in the error
body is recovered as `already a member`, anything else re-raised; the success
path chains `.get("profile").get("name").get("fullName")`, so a missing
`profile` or `name` raises AttributeError, and a missing `error` field in
the error body does too. -/
def add_teacher (transport : Dict → Except HttpError MemberResp) :
    PyResult (List Msg) × Nat :=
  match transport [("userId", "alice@example.edu")] with
  | .ok t =>
    match t.profile with
    | none => (.attrErr, 1)
    | some p =>
      match p.name with
      | none => (.attrErr, 1)
      | some nm => (.ok [Msg.teacherAdded nm.fullName "123456"], 1)
  | .error e =>
    match e.errObj with
    | none => (.attrErr, 1)
    | some err =>
      if err.code = some 409 then
        (.ok [Msg.alreadyTeacher "alice@example.edu"], 1)
      else (.exn e, 1)

/-- `add_student` (lines 188-215): one students-create call; 409 recovered as
`already a member`, anything else re-raised; same chained-`.get` success path
and error-body parse as `add_teacher`. -/
def add_student (transport : Dict → Except HttpError MemberResp) :
    PyResult (List Msg) × Nat :=
  match transport [("userId", "me")] with
  | .ok s =>
    match s.profile with
    | none => (.attrErr, 1)
    | some p =>
      match p.name with
      | none => (.attrErr, 1)
      | some nm => (.ok [Msg.studentEnrolled nm.fullName "123456"], 1)
  | .error e =>
    match e.errObj with
    | none => (.attrErr, 1)
    | some err =>
      if err.code = some 409 then
        (.ok [Msg.alreadyStudentMember], 1)
      else (.exn e, 1)

/-- `create_coursework` (lines 217-237): one courseWork-create call, no try
block. The nested body literal is opaque to every claim, so the transport is
taken at the response level. -/
def create_coursework (transport : Except HttpError Dict) :
    PyResult (List Msg) × Nat :=
  match transport with
  | .error e => (.exn e, 1)
  | .ok cw => (.ok [Msg.assignmentCreated (dGet cw "id")], 1)

/-- `Serves fetch tok pages`: starting from token `tok`, the fetch operation
returns exactly the pages `pages` in order; every page but the last carries a
truthy next-token leading to the next page, and the last page's next-token is
absent. -/
inductive Serves (fetch : Option String → ListResponse) :
    Option String → List ListResponse → Prop
  | last (tok : Option String) (r : ListResponse) :
      fetch tok = r → r.nextPageToken = none → Serves fetch tok [r]
  | cons (tok : Option String) (r : ListResponse) (rest : List ListResponse) :
      fetch tok = r → tokenFalsy r.nextPageToken = false →
      Serves fetch r.nextPageToken rest → Serves fetch tok (r :: rest)

/-- The loop makes at least one fetch call whenever it terminates. -/
theorem loop_calls_pos (fetch : Option String → ListResponse) :
    ∀ fuel tok acc res k,
      listCoursesLoop fetch fuel tok acc = some (res, k) → 1 ≤ k := by
  intro fuel
  induction fuel with
  | zero => intro tok acc res k h; simp [listCoursesLoop] at h
  | succ n ih =>
    intro tok acc res k h
    rw [listCoursesLoop] at h
    by_cases hf : tokenFalsy (fetch tok).nextPageToken
    · simp [hf] at h
      omega
    · simp [hf] at h
      rcases hrec : listCoursesLoop fetch n (fetch tok).nextPageToken
          (acc ++ itemsOf (fetch tok)) with _ | p
      · rw [hrec] at h; simp at h
      · rw [hrec] at h
        simp at h
        omega

/-- A falsy returned token stops the loop after the current page. -/
theorem loop_stop (fetch : Option String → ListResponse) (fuel : Nat)
    (tok : Option String) (acc : List Dict)
    (h : tokenFalsy (fetch tok).nextPageToken = true) :
    listCoursesLoop fetch (fuel + 1) tok acc =
      some (acc ++ itemsOf (fetch tok), 1) := by
  rw [listCoursesLoop]
  simp [h]

/-- A truthy returned token continues the loop with the returned token and
the extended accumulator. -/
theorem loop_continue (fetch : Option String → ListResponse) (fuel : Nat)
    (tok : Option String) (acc : List Dict)
    (h : tokenFalsy (fetch tok).nextPageToken = false) :
    listCoursesLoop fetch (fuel + 1) tok acc =
      (listCoursesLoop fetch fuel (fetch tok).nextPageToken
        (acc ++ itemsOf (fetch tok))).map (fun p => (p.1, p.2 + 1)) := by
  rw [listCoursesLoop]
  simp [h]
  rcases listCoursesLoop fetch fuel (fetch tok).nextPageToken
      (acc ++ itemsOf (fetch tok)) with _ | ⟨res, k⟩ <;> simp

/-- Against a server that always returns a truthy next-token, no amount of
fuel makes the loop terminate. -/
theorem loop_diverges (fetch : Option String → ListResponse)
    (h : ∀ t, tokenFalsy (fetch t).nextPageToken = false) :
    ∀ fuel tok acc, listCoursesLoop fetch fuel tok acc = none := by
  intro fuel
  induction fuel with
  | zero => intro tok acc; rw [listCoursesLoop]
  | succ n ih =>
    intro tok acc
    rw [loop_continue fetch n tok acc (h tok), ih]
    rfl

/-- When `fetch` serves the page list `pages` from `tok`, the loop run with
any sufficient fuel accumulates exactly the concatenation of the pages'
items after `acc`, in one fetch call per page. -/
theorem loop_serves {fetch : Option String → ListResponse}
    {tok : Option String} {pages : List ListResponse}
    (h : Serves fetch tok pages) :
    ∀ fuel, pages.length ≤ fuel → ∀ acc,
      listCoursesLoop fetch fuel tok acc =
        some (acc ++ (pages.map itemsOf).flatten, pages.length) := by
  induction h with
  | last tok r hf hn =>
    intro fuel hfuel acc
    obtain ⟨m, rfl⟩ : ∃ m, fuel = m + 1 := ⟨fuel - 1, by simp at hfuel; omega⟩
    rw [loop_stop fetch m tok acc (by rw [hf, hn]; rfl)]
    simp [hf]
  | cons tok r rest hf hfal hs ih =>
    intro fuel hfuel acc
    obtain ⟨m, rfl⟩ : ∃ m, fuel = m + 1 := ⟨fuel - 1, by simp at hfuel; omega⟩
    have hm : rest.length ≤ m := by simp at hfuel; omega
    rw [loop_continue fetch m tok acc (by rw [hf]; exact hfal), hf,
      ih m hm (acc ++ itemsOf r)]
    simp

/-- Claim C1: when the fetch operation serves a finite sequence of pages
`P1..Pn`, each carrying items and a truthy next-token except the last whose
next-token is absent, the pagination loop of `list_courses` accumulates
exactly the concatenation of the pages' item lists in server order — no
reordering, no deduplication — in one fetch call per page. -/
theorem list_courses_concatenates_pages
    (fetch : Option String → ListResponse) (pages : List ListResponse)
    (fuel : Nat) (h : Serves fetch none pages)
    (hfuel : pages.length ≤ fuel) :
    listCoursesLoop fetch fuel none [] =
      some ((pages.map itemsOf).flatten, pages.length) := by
  have := loop_serves h fuel hfuel []
  simpa using this

/-- A two-page fetch behaviour: the first page yields two courses and a
token, the second one course and no token. -/
def fetchTwoPages : Option String → ListResponse := fun tok =>
  match tok with
  | none => { courses := some [[("id", "1")], [("id", "2")]],
              nextPageToken := some "t2" }
  | some _ => { courses := some [[("id", "3")]], nextPageToken := none }

theorem list_courses_concatenates_pages_witness :
    listCoursesLoop fetchTwoPages 2 none [] =
      some ([[("id", "1")], [("id", "2")], [("id", "3")]], 2) := by
  have h : Serves fetchTwoPages none
      [{ courses := some [[("id", "1")], [("id", "2")]],
         nextPageToken := some "t2" },
       { courses := some [[("id", "3")]], nextPageToken := none }] :=
    Serves.cons _ _ _ rfl (by decide) (Serves.last _ _ rfl rfl)
  have h2 := list_courses_concatenates_pages fetchTwoPages _ 2 h (by decide)
  simpa using h2

/-- Claim C5: the pagination loop fetches at least one page whenever it
terminates; it stops after a page exactly when that page's returned token is
falsy (absent or empty) and otherwise continues with the returned token; and
there is no client-side maximum-page guard: against a server that returns a
truthy next-token on every page, no fuel bound makes the loop terminate. -/
theorem pagination_loop_termination :
    (∀ (fetch : Option String → ListResponse) fuel tok acc res k,
        listCoursesLoop fetch fuel tok acc = some (res, k) → 1 ≤ k) ∧
    (∀ (fetch : Option String → ListResponse) fuel tok acc,
        tokenFalsy (fetch tok).nextPageToken = true →
        listCoursesLoop fetch (fuel + 1) tok acc =
          some (acc ++ itemsOf (fetch tok), 1)) ∧
    (∀ (fetch : Option String → ListResponse) fuel tok acc,
        tokenFalsy (fetch tok).nextPageToken = false →
        listCoursesLoop fetch (fuel + 1) tok acc =
          (listCoursesLoop fetch fuel (fetch tok).nextPageToken
            (acc ++ itemsOf (fetch tok))).map (fun p => (p.1, p.2 + 1))) ∧
    (∀ fetch : Option String → ListResponse,
        (∀ t, tokenFalsy (fetch t).nextPageToken = false) →
        ∀ fuel tok acc, listCoursesLoop fetch fuel tok acc = none) :=
  ⟨loop_calls_pos, loop_stop, loop_continue, loop_diverges⟩

/-- A server that answers every request with a non-empty next-token. -/
def alwaysTokenFetch : Option String → ListResponse :=
  fun _ => { courses := some [], nextPageToken := some "more" }

theorem pagination_loop_termination_witness :
    listCoursesLoop alwaysTokenFetch 5 none [] = none := by
  have h : tokenFalsy (some "more") = false := by decide
  exact pagination_loop_termination.2.2.2 alwaysTokenFetch (fun _ => h)
    5 none []

/-- Claim C7: when the first fetched page carries no next-token, the loop
returns exactly that page's items after exactly one fetch call. -/
theorem single_page_listing (fetch : Option String → ListResponse)
    (fuel : Nat) (h : (fetch none).nextPageToken = none) :
    listCoursesLoop fetch (fuel + 1) none [] =
      some (itemsOf (fetch none), 1) := by
  have := loop_stop fetch fuel none [] (by rw [h]; rfl)
  simpa using this

/-- A single-page fetch behaviour carrying two courses and no token. -/
def twoItemFetch : Option String → ListResponse :=
  fun _ => { courses := some [[("id", "1")], [("id", "2")]],
             nextPageToken := none }

theorem single_page_listing_witness :
    listCoursesLoop twoItemFetch 1 none [] =
      some ([[("id", "1")], [("id", "2")]], 1) ∧
    ([[("id", "1")], [("id", "2")]] : List Dict).length = 2 :=
  ⟨single_page_listing twoItemFetch 0 rfl, by decide⟩

/-- Claim C8: when the fetch operation returns zero items and no next-token,
the accumulated result is the empty sequence and `list_courses` reports
`No courses found.` instead of enumerating items. -/
theorem empty_listing_reports_none (fetch : Option String → ListResponse)
    (fuel : Nat) (hi : itemsOf (fetch none) = [])
    (ht : (fetch none).nextPageToken = none) :
    listCoursesLoop fetch (fuel + 1) none [] = some ([], 1) ∧
    list_courses fetch (fuel + 1) = some ([Msg.noCoursesFound], 1) := by
  have h1 : listCoursesLoop fetch (fuel + 1) none [] = some ([], 1) := by
    have := loop_stop fetch fuel none [] (by rw [ht]; rfl)
    simpa [hi] using this
  refine ⟨h1, ?_⟩
  rw [list_courses, h1]
  rfl

/-- A fetch behaviour returning an empty page with no token. -/
def emptyFetch : Option String → ListResponse :=
  fun _ => { courses := some [], nextPageToken := none }

theorem empty_listing_reports_none_witness :
    listCoursesLoop emptyFetch 1 none [] = some ([], 1) ∧
    list_courses emptyFetch 1 = some ([Msg.noCoursesFound], 1) :=
  empty_listing_reports_none emptyFetch 0 rfl rfl

/-- Claim C3: a get-by-id whose transport raises an error carrying code 404
recovers to a printed not-found message naming the requested id (`123456`),
issuing no failure to the caller; any other carried code propagates the
original error unchanged. -/
theorem get_course_status_handling (e : HttpError) (err : ErrObj) (c : Int)
    (he : e.errObj = some err) (hc : err.code = some c) :
    (c = 404 →
      get_course (Except.error e) = (.ok [Msg.courseNotFound "123456"], 1)) ∧
    (c ≠ 404 → get_course (Except.error e) = (.exn e, 1)) := by
  constructor
  · intro h404
    subst h404
    simp [get_course, he, hc]
  · intro hne
    simp [get_course, he, hc, hne]

theorem get_course_status_handling_witness :
    get_course (Except.error ⟨some ⟨some 404⟩⟩) =
      (.ok [Msg.courseNotFound "123456"], 1) ∧
    get_course (Except.error ⟨some ⟨some 500⟩⟩) =
      (.exn ⟨some ⟨some 500⟩⟩, 1) :=
  ⟨(get_course_status_handling ⟨some ⟨some 404⟩⟩ ⟨some 404⟩ 404 rfl rfl).1 rfl,
   (get_course_status_handling ⟨some ⟨some 500⟩⟩ ⟨some 500⟩ 500 rfl rfl).2
     (by decide)⟩

/-- Claim C4: an enrollment-style create (add_teacher, add_student) whose
transport raises an error carrying code 409 recovers to a printed
already-a-member message with no propagated failure; any other carried code
propagates the original error unchanged. -/
theorem enrollment_conflict_handling (e : HttpError) (err : ErrObj) (c : Int)
    (he : e.errObj = some err) (hc : err.code = some c) :
    (c = 409 →
      add_teacher (fun _ => Except.error e) =
        (.ok [Msg.alreadyTeacher "alice@example.edu"], 1) ∧
      add_student (fun _ => Except.error e) =
        (.ok [Msg.alreadyStudentMember], 1)) ∧
    (c ≠ 409 →
      add_teacher (fun _ => Except.error e) = (.exn e, 1) ∧
      add_student (fun _ => Except.error e) = (.exn e, 1)) := by
  constructor
  · intro h409
    subst h409
    constructor <;> simp [add_teacher, add_student, he, hc]
  · intro hne
    constructor <;> simp [add_teacher, add_student, he, hc, hne]

theorem enrollment_conflict_handling_witness :
    add_teacher (fun _ => Except.error ⟨some ⟨some 409⟩⟩) =
      (.ok [Msg.alreadyTeacher "alice@example.edu"], 1) ∧
    add_student (fun _ => Except.error ⟨some ⟨some 500⟩⟩) =
      (.exn ⟨some ⟨some 500⟩⟩, 1) :=
  ⟨((enrollment_conflict_handling ⟨some ⟨some 409⟩⟩ ⟨some 409⟩ 409
      rfl rfl).1 rfl).1,
   ((enrollment_conflict_handling ⟨some ⟨some 500⟩⟩ ⟨some 500⟩ 500
      rfl rfl).2 (by decide)).2⟩

/-- Claim C2 fails on the code: a transport failure carrying code 500 during
alias creation is swallowed (a failure message is printed) rather than
re-raised to the caller. -/
theorem alias_failure_swallowed_counterexample :
    add_alias_new (fun _ => Except.error ⟨some ⟨some 500⟩⟩) =
      (.ok [Msg.courseCreationFailed], 1) ∧
    add_alias_new (fun _ => Except.error ⟨some ⟨some 500⟩⟩) ≠
      (.exn ⟨some ⟨some 500⟩⟩, 1) := by
  constructor
  · rfl
  · decide

/-- Claim C2 as amended: on get-by-id only 404 is intercepted and on the
enrollment creates only 409; every other carried code there, and every
transport failure of every other operation — create, both requests inside
update, patch, create-coursework, and any page fetch of the paginated
listing, which aborts the loop at that page and propagates with no partial
result — propagates unchanged; but the two alias-creation call-sites
intercept every transport failure, print a failure message, and re-raise
nothing. -/
theorem interception_policy (e : HttpError) (err : ErrObj) (c : Int)
    (he : e.errObj = some err) (hc : err.code = some c) :
    (c ≠ 404 → get_course (Except.error e) = (.exn e, 1)) ∧
    (c ≠ 409 →
      add_teacher (fun _ => Except.error e) = (.exn e, 1) ∧
      add_student (fun _ => Except.error e) = (.exn e, 1)) ∧
    add_alias_new (fun _ => Except.error e) =
      (.ok [Msg.courseCreationFailed], 1) ∧
    add_alias_existing (fun _ => Except.error e) =
      (.ok [Msg.aliasCreationFailed], 1) ∧
    create_course (fun _ => Except.error e) = (.exn e, 1) ∧
    (∀ updT, update_course (Except.error e) updT = (.exn e, 1)) ∧
    (∀ c0, update_course (Except.ok c0) (fun _ => Except.error e) =
      (.exn e, 2)) ∧
    patch_course (fun _ => Except.error e) = (.exn e, 1) ∧
    create_coursework (Except.error e) = (.exn e, 1) ∧
    (∀ (fetchE : Option String → Except HttpError ListResponse) fuel tok acc,
      fetchE tok = Except.error e →
      listCoursesLoopE fetchE (fuel + 1) tok acc = some (.exn e, 1)) := by
  refine ⟨?_, ?_, rfl, rfl, rfl, fun _ => rfl, fun _ => rfl, rfl, rfl, ?_⟩
  · intro hne
    simp [get_course, he, hc, hne]
  · intro hne
    constructor <;> simp [add_teacher, add_student, he, hc, hne]
  · intro fetchE fuel tok acc hf
    rw [listCoursesLoopE, hf]

theorem interception_policy_witness :
    get_course (Except.error ⟨some ⟨some 500⟩⟩) =
      (.exn ⟨some ⟨some 500⟩⟩, 1) ∧
    add_alias_existing (fun _ => Except.error ⟨some ⟨some 500⟩⟩) =
      (.ok [Msg.aliasCreationFailed], 1) :=
  ⟨(interception_policy ⟨some ⟨some 500⟩⟩ ⟨some 500⟩ 500 rfl rfl).1
     (by decide),
   (interception_policy ⟨some ⟨some 500⟩⟩ ⟨some 500⟩ 500 rfl rfl).2.2.2.1⟩

/-- Claim C6 fails on the code: `update_course` issues two remote requests
(the get and the update), not exactly one, when the get succeeds. -/
theorem update_two_requests_counterexample :
    (update_course (Except.ok [("name", "Bio")]) (fun b => Except.ok b)).2 = 2 ∧
    (2 : Nat) ≠ 1 := by
  constructor
  · rfl
  · decide

/-- Claim C6 as amended: create, get, patch, both alias creations, add
teacher, add student and create-coursework each issue exactly one remote
request per invocation whatever the transport does; the update operation
issues two requests — its internal get and then the update — when the get
succeeds, and only the one get request when the get fails. -/
theorem request_counts :
    (∀ t, (create_course t).2 = 1) ∧
    (∀ t, (get_course t).2 = 1) ∧
    (∀ t, (patch_course t).2 = 1) ∧
    (∀ t, (add_alias_new t).2 = 1) ∧
    (∀ t, (add_alias_existing t).2 = 1) ∧
    (∀ t, (add_teacher t).2 = 1) ∧
    (∀ t, (add_student t).2 = 1) ∧
    (∀ t, (create_coursework t).2 = 1) ∧
    (∀ c updT, (update_course (Except.ok c) updT).2 = 2) ∧
    (∀ e updT, update_course (Except.error e) updT = (.exn e, 1)) := by
  refine ⟨?_, ?_, ?_, ?_, ?_, ?_, ?_, ?_, ?_, ?_⟩
  · intro t
    rcases ht : t createCourseBody with e | c <;> simp [create_course, ht]
  · intro t
    rcases t with e | c
    · obtain ⟨eo⟩ := e
      rcases eo with _ | err
      · rfl
      · by_cases h4 : err.code = some 404 <;> simp [get_course, h4]
    · rfl
  · intro t
    rcases ht : t patchBody with e | c <;> simp [patch_course, ht]
  · intro t
    rcases ht : t newAliasCourseBody with e | c <;> simp [add_alias_new, ht]
  · intro t
    rcases ht : t aliasBody with e | c <;> simp [add_alias_existing, ht]
  · intro t
    rcases ht : t [("userId", "alice@example.edu")] with e | m
    · obtain ⟨eo⟩ := e
      rcases eo with _ | err
      · simp [add_teacher, ht]
      · by_cases h9 : err.code = some 409 <;> simp [add_teacher, ht, h9]
    · obtain ⟨pr⟩ := m
      rcases pr with _ | p
      · simp [add_teacher, ht]
      · obtain ⟨pn⟩ := p
        rcases pn with _ | nm <;> simp [add_teacher, ht]
  · intro t
    rcases ht : t [("userId", "me")] with e | m
    · obtain ⟨eo⟩ := e
      rcases eo with _ | err
      · simp [add_student, ht]
      · by_cases h9 : err.code = some 409 <;> simp [add_student, ht, h9]
    · obtain ⟨pr⟩ := m
      rcases pr with _ | p
      · simp [add_student, ht]
      · obtain ⟨pn⟩ := p
        rcases pn with _ | nm <;> simp [add_student, ht]
  · intro t
    rcases t with e | cw <;> rfl
  · intro c updT
    rcases hu : updT (updateBody c) with e | c2 <;>
      simp [update_course, hu]
  · intro e updT
    rfl

/-- A page response missing its `courses` field entirely. -/
def missingItemsFetch : Option String → ListResponse :=
  fun _ => { courses := none, nextPageToken := none }

/-- Claim C9 fails on the code: a listing page whose `courses` field is
missing is silently treated as an empty page — `list_courses` completes
normally and reports `No courses found.` instead of surfacing a failure. -/
theorem missing_items_field_absorbed_counterexample :
    list_courses missingItemsFetch 1 = some ([Msg.noCoursesFound], 1) := by
  decide

/-- Claim C9 as amended: the listing path is defensive — a page response
missing its items field contributes an empty page (`.get("courses", [])`)
and the listing completes normally — while the error-body parse path is not:
an HttpError whose decoded body lacks the `error` field makes get-by-id,
add-teacher and add-student fail with an AttributeError-style access on
`None`, and so does a member-create success response missing its `profile`
or `name` object. -/
theorem malformed_response_handling :
    (∀ r : ListResponse, r.courses = none → itemsOf r = []) ∧
    list_courses missingItemsFetch 1 = some ([Msg.noCoursesFound], 1) ∧
    (∀ e : HttpError, e.errObj = none →
      get_course (Except.error e) = (.attrErr, 1) ∧
      add_teacher (fun _ => Except.error e) = (.attrErr, 1) ∧
      add_student (fun _ => Except.error e) = (.attrErr, 1)) ∧
    (∀ m : MemberResp, m.profile = none →
      add_teacher (fun _ => Except.ok m) = (.attrErr, 1) ∧
      add_student (fun _ => Except.ok m) = (.attrErr, 1)) ∧
    (∀ (m : MemberResp) (p : Profile), m.profile = some p → p.name = none →
      add_teacher (fun _ => Except.ok m) = (.attrErr, 1) ∧
      add_student (fun _ => Except.ok m) = (.attrErr, 1)) := by
  refine ⟨?_, by decide, ?_, ?_, ?_⟩
  · intro r hr
    rw [itemsOf, hr]
    rfl
  · intro e he
    refine ⟨?_, ?_, ?_⟩ <;> simp [get_course, add_teacher, add_student, he]
  · intro m hm
    constructor <;> simp [add_teacher, add_student, hm]
  · intro m p hm hp
    constructor <;> simp [add_teacher, add_student, hm, hp]

theorem malformed_response_handling_witness :
    itemsOf { courses := none, nextPageToken := none } = [] ∧
    get_course (Except.error ⟨none⟩) = (.attrErr, 1) :=
  ⟨malformed_response_handling.1 ⟨none, none⟩ rfl,
   (malformed_response_handling.2.2.1 ⟨none⟩ rfl).1⟩

/-- Looking up the key just set returns the new value. -/
theorem dGet_dSet_same (d : Dict) (k v : String) :
    dGet (dSet d k v) k = some v := by
  induction d with
  | nil => simp [dSet, dGet]
  | cons p rest ih =>
    obtain ⟨k2, v2⟩ := p
    by_cases h : k2 = k
    · subst h
      simp [dSet, dGet]
    · simp [dSet, dGet, h, ih]

/-- Looking up a different key is unaffected by a set. -/
theorem dGet_dSet_other (d : Dict) (k v k2 : String) (hne : k2 ≠ k) :
    dGet (dSet d k v) k2 = dGet d k2 := by
  induction d with
  | nil => simp [dSet, dGet, Ne.symm hne]
  | cons p rest ih =>
    obtain ⟨k3, v3⟩ := p
    by_cases h : k3 = k
    · subst h
      simp [dSet, dGet, Ne.symm hne]
    · by_cases h2 : k3 = k2 <;> simp [dSet, dGet, h, h2, hne, ih]

/-- Claim C10: the body `update_course` sends to the update request agrees
with the fetched course record on every key other than `section` and `room`,
and binds `section` to `Period 3` and `room` to `302`. -/
theorem update_body_frame (c : Dict) (k : String) :
    (k ≠ "section" → k ≠ "room" → dGet (updateBody c) k = dGet c k) ∧
    dGet (updateBody c) "section" = some "Period 3" ∧
    dGet (updateBody c) "room" = some "302" := by
  refine ⟨?_, ?_, ?_⟩
  · intro hs hr
    rw [updateBody, dGet_dSet_other _ _ _ _ hr, dGet_dSet_other _ _ _ _ hs]
  · rw [updateBody, dGet_dSet_other _ _ _ _ (by decide), dGet_dSet_same]
  · rw [updateBody, dGet_dSet_same]

theorem update_body_frame_witness :
    dGet (updateBody [("name", "Biology"), ("section", "Period 2")]) "name" =
      some "Biology" ∧
    dGet (updateBody [("name", "Biology"), ("section", "Period 2")])
      "section" = some "Period 3" := by
  have h := update_body_frame [("name", "Biology"), ("section", "Period 2")]
    "name"
  exact ⟨(h.1 (by decide) (by decide)).trans (by decide), h.2.1⟩

end Classroom
